import Mathlib

/-!
# IpoptSolver: the adapter between an NLP object and the interior-point engine

Shallow embedding of `ct_optcon/src/nlp/solver/IpoptSolver.cpp`.

* The NLP object `nlp_` and the engine `ipoptApp_` are collaborators whose code is not
  part of the adapter.  Each is a record of functions over an arbitrary state type, so
  every theorem holds for every NLP object and every engine.
* A caller-owned array is a `List`; `Eigen::Map(ptr, k)` is a view of its first `k`
  entries.  The only pointer the adapter tests against `NULL` is `values`, an `Option`.
* `Number` (a C++ `double`) is never computed with by the adapter, only passed along
  and, in one `assert`, compared with itself.
* Console output is not modelled.
* An `assert` that compares an integer or a pointer with itself holds in every build and
  has no effect.  The two other ones, in `eval_f` and in `eval_g`, are embedded: the flag
  `ndebug` says whether the build defines `NDEBUG` (assertions compiled out), and a call
  is left either by its `return` or by the abort of a failed assertion.
-/

set_option autoImplicit false

namespace ct.optcon

/-! ## Scalars -/

/-- A `double` as the adapter sees it: a value handed from one collaborator to the
other.  `dec mantissa exponent` is the decimal literal `mantissa * 10 ^ exponent`; `nan`
is a not-a-number.  An infinity is like any other value to the adapter. -/
inductive Number where
  | dec (mantissa exponent : Int)
  | nan
  deriving DecidableEq, Repr

/-- The C++ comparison `v == v` of a `double` with itself: false exactly for a NaN. -/
def Number.eqSelf : Number → Bool
  | .nan => false
  | .dec _ _ => true

/-- How a call whose body holds an `assert` is left: by its `return`, or by the abort of
a failed assertion. -/
inductive Exit where
  | returned (value : Bool)
  | aborted
  deriving DecidableEq, Repr

/-- The C++ narrowing `(int)` of a `size_t`: the low 32 bits, read as two's complement. -/
def toInt (v : Nat) : Int :=
  if v % 2 ^ 32 < 2 ^ 31 then ((v % 2 ^ 32 : Nat) : Int) else ((v % 2 ^ 32 : Nat) : Int) - 2 ^ 32

/-! ## The engine's option table -/

/-- A value stored in the engine's option table by one of the three setter families. -/
inductive OptionValue where
  | numeric (v : Number)
  | integer (v : Int)
  | string (v : String)
  deriving DecidableEq, Repr

/-- The table behind `ipoptApp_->Options()`: the value explicitly set for a tag, if any. -/
abbrev OptionsList := String → Option OptionValue

namespace OptionsList

/-- No option has been set. -/
def empty : OptionsList := fun _ => none

/-- `SetNumericValue(tag, value)` stores the value under the tag. -/
def SetNumericValue (o : OptionsList) (tag : String) (value : Number) : OptionsList :=
  fun t => if t = tag then some (.numeric value) else o t

/-- `SetIntegerValue(tag, value)` stores the value under the tag. -/
def SetIntegerValue (o : OptionsList) (tag : String) (value : Int) : OptionsList :=
  fun t => if t = tag then some (.integer value) else o t

/-- `SetStringValue(tag, value)` stores the value under the tag. -/
def SetStringValue (o : OptionsList) (tag : String) (value : String) : OptionsList :=
  fun t => if t = tag then some (.string value) else o t

/-- `SetStringValueIfUnset(tag, value)` stores the value only when the tag holds none. -/
def SetStringValueIfUnset (o : OptionsList) (tag : String) (value : String) : OptionsList :=
  match o tag with
  | some _ => o
  | none => SetStringValue o tag value

end OptionsList

/-! ## Settings -/

/-- The fields of `IpoptSettings` that `setSolverOptions` reads; each has the type of the
setter it is passed to. -/
structure IpoptSettings where
  tol_ : Number
  constr_viol_tol_ : Number
  max_iter_ : Int
  linear_scaling_on_demand_ : String
  hessian_approximation_ : String
  printLevel_ : Int
  print_user_options_ : String
  derivativeTest_ : String
  derivativeTestTol_ : Number
  derivativeTestPerturbation_ : Number
  point_perturbation_radius_ : Number
  linearSystemScaling_ : String
  linear_solver_ : String
  deriving DecidableEq, Repr

/-- The part of `NlpSolverSettings` the adapter reads. -/
structure NlpSolverSettings where
  ipoptSettings_ : IpoptSettings
  deriving DecidableEq, Repr

/-! ## Engine status codes -/

/-- The return codes of the engine, `Ipopt::ApplicationReturnStatus`. -/
inductive ApplicationReturnStatus where
  | Solve_Succeeded
  | Solved_To_Acceptable_Level
  | Infeasible_Problem_Detected
  | Search_Direction_Becomes_Too_Small
  | Diverging_Iterates
  | User_Requested_Stop
  | Feasible_Point_Found
  | Maximum_Iterations_Exceeded
  | Restoration_Failed
  | Error_In_Step_Computation
  | Maximum_CpuTime_Exceeded
  | Not_Enough_Degrees_Of_Freedom
  | Invalid_Problem_Definition
  | Invalid_Option
  | Invalid_Number_Detected
  | Unrecoverable_Exception
  | NonIpopt_Exception_Thrown
  | Insufficient_Memory
  | Internal_Error
  deriving DecidableEq, Repr

/-- The engine object `ipoptApp_`: its option table and the rest of its state. -/
structure IpoptApplication (ε : Type) where
  options : OptionsList
  core : ε

/-- The adapter object: the NLP object it points to, its settings copy, the engine, the
last engine status and the initialisation flag of the base class. -/
structure IpoptSolver (σ ε : Type) where
  nlp_ : σ
  settings_ : IpoptSettings
  ipoptApp_ : IpoptApplication ε
  status_ : ApplicationReturnStatus
  isInitialized_ : Bool

/-! ## Configuration -/

/-- `IpoptSolver::setSolverOptions`, statement by statement. -/
def setSolverOptions {σ ε : Type} (s : IpoptSolver σ ε) : IpoptSolver σ ε :=
  let o := s.ipoptApp_.options
  let o := o.SetNumericValue "tol" s.settings_.tol_
  let o := o.SetNumericValue "constr_viol_tol" s.settings_.constr_viol_tol_
  let o := o.SetIntegerValue "max_iter" s.settings_.max_iter_
  let o := o.SetStringValueIfUnset "linear_scaling_on_demand" s.settings_.linear_scaling_on_demand_
  let o := o.SetStringValueIfUnset "hessian_approximation" s.settings_.hessian_approximation_
  let o := o.SetIntegerValue "print_level" s.settings_.printLevel_
  let o := o.SetStringValueIfUnset "print_user_options" s.settings_.print_user_options_
  let o := o.SetStringValueIfUnset "derivative_test" s.settings_.derivativeTest_
  let o := o.SetIntegerValue "print_level" s.settings_.printLevel_
  let o := o.SetNumericValue "derivative_test_tol" s.settings_.derivativeTestTol_
  let o := o.SetNumericValue "derivative_test_perturbation" s.settings_.derivativeTestPerturbation_
  let o := o.SetNumericValue "point_perturbation_radius" s.settings_.point_perturbation_radius_
  let o := o.SetStringValueIfUnset "linear_system_scaling" s.settings_.linearSystemScaling_
  let o := o.SetStringValueIfUnset "linear_solver" s.settings_.linear_solver_
  { s with ipoptApp_ := { s.ipoptApp_ with options := o } }

/-- `IpoptSolver::configureDerived`. -/
def configureDerived {σ ε : Type} (s : IpoptSolver σ ε) (settings : NlpSolverSettings) :
    IpoptSolver σ ε :=
  let s := { s with settings_ := settings.ipoptSettings_ }
  let s := setSolverOptions s
  { s with isInitialized_ := true }

/-- `IpoptSolver::prepareWarmStart`; `maxIterations` is a `size_t`. -/
def prepareWarmStart {σ ε : Type} (s : IpoptSolver σ ε) (maxIterations : Nat) :
    IpoptSolver σ ε :=
  let o := s.ipoptApp_.options
  let o := o.SetStringValue "warm_start_init_point" "yes"
  let o := o.SetNumericValue "warm_start_bound_push" (.dec 1 (-9))
  let o := o.SetNumericValue "warm_start_bound_frac" (.dec 1 (-9))
  let o := o.SetNumericValue "warm_start_slack_bound_frac" (.dec 1 (-9))
  let o := o.SetNumericValue "warm_start_slack_bound_push" (.dec 1 (-9))
  let o := o.SetNumericValue "warm_start_mult_bound_push" (.dec 1 (-9))
  let o := o.SetIntegerValue "max_iter" (toInt maxIterations)
  let o := o.SetStringValue "derivative_test" "none"
  { s with ipoptApp_ := { s.ipoptApp_ with options := o } }

/-! ## Views of caller-owned arrays -/

/-- The entries seen through `Eigen::Map(ptr, k)`: the first `k` entries of the array. -/
def MapVec {α : Type} (buf : List α) (k : Int) : List α :=
  buf.take k.toNat

/-- The array after a callee has written `v` through `Eigen::Map(ptr, k)`: only entries
inside the view can change, and the array keeps its length. -/
def MapVec.assign {α : Type} (buf : List α) (k : Int) (v : List α) : List α :=
  let w := v.take (min k.toNat buf.length)
  w ++ buf.drop w.length

/-! ## The NLP object -/

/-- The methods of `Nlp` that the adapter calls, over the NLP object's state `σ`.  Every
method may change that state.  A method that receives a mutable view gets the current
entries of the view and returns the entries it leaves there; the counts are given as
`Ipopt::Index` values. -/
structure Nlp (σ : Type) where
  getVarCount : σ → Int × σ
  getConstraintsCount : σ → Int × σ
  getNonZeroJacobianCount : σ → Int × σ
  getNonZeroHessianCount : σ → Int × σ
  getVariableBounds : σ → List Number → List Number → Int → (List Number × List Number) × σ
  getConstraintBounds : σ → List Number → List Number → Int → (List Number × List Number) × σ
  getOptimizationVars : σ → Int → List Number → List Number × σ
  getBoundMultipliers : σ → Int → List Number → List Number → (List Number × List Number) × σ
  getLambdaVars : σ → Int → List Number → List Number × σ
  extractOptimizationVars : σ → List Number → Bool → σ
  evaluateCostFun : σ → Number × σ
  evaluateCostGradient : σ → Int → List Number → List Number × σ
  evaluateConstraints : σ → List Number → List Number × σ
  getSparsityPatternJacobian : σ → Int → List Int → List Int → (List Int × List Int) × σ
  evaluateConstraintJacobian : σ → Int → List Number → List Number × σ
  getSparsityPatternHessian : σ → Int → List Int → List Int → (List Int × List Int) × σ
  evaluateHessian : σ → Int → List Number → Number → List Number → List Number × σ
  extractIpoptSolution : σ → List Number → List Number → List Number → List Number → σ

/-! ## The callbacks -/

/-- `Ipopt::TNLP::IndexStyleEnum`. -/
inductive IndexStyleEnum where
  | C_STYLE
  | FORTRAN_STYLE
  deriving DecidableEq, Repr

/-- The reference outputs of `get_nlp_info`. -/
structure NlpInfo where
  n : Int
  m : Int
  nnz_jac_g : Int
  nnz_h_lag : Int
  index_style : IndexStyleEnum
  deriving DecidableEq, Repr

/-- The four arrays of `get_bounds_info`. -/
structure BoundsInfo where
  x_l : List Number
  x_u : List Number
  g_l : List Number
  g_u : List Number
  deriving DecidableEq, Repr

/-- The four arrays of `get_starting_point`. -/
structure StartingPoint where
  x : List Number
  z_L : List Number
  z_U : List Number
  lambda : List Number
  deriving DecidableEq, Repr

/-- The three output arrays of `eval_jac_g` and `eval_h`; `values = none` is `NULL`. -/
structure SparseOut where
  iRow : List Int
  jCol : List Int
  values : Option (List Number)
  deriving DecidableEq, Repr

/-- `IpoptSolver::get_nlp_info`.  Its asserts compare an `Ipopt::Index` with itself. -/
def get_nlp_info {σ : Type} (nlp : Nlp σ) (s : σ) : Bool × NlpInfo × σ :=
  let r1 := nlp.getVarCount s
  let r2 := nlp.getConstraintsCount r1.2
  let r3 := nlp.getNonZeroJacobianCount r2.2
  let r4 := nlp.getNonZeroHessianCount r3.2
  (true, ⟨r1.1, r2.1, r3.1, r4.1, .C_STYLE⟩, r4.2)

/-- `IpoptSolver::get_bounds_info`.  Its asserts compare a pointer, or `n`, with
itself. -/
def get_bounds_info {σ : Type} (nlp : Nlp σ) (s : σ) (n : Int) (x_l x_u : List Number)
    (m : Int) (g_l g_u : List Number) : Bool × BoundsInfo × σ :=
  let r1 := nlp.getVariableBounds s (MapVec x_l n) (MapVec x_u n) n
  let r2 := nlp.getConstraintBounds r1.2 (MapVec g_l m) (MapVec g_u m) m
  (true,
   ⟨MapVec.assign x_l n r1.1.1, MapVec.assign x_u n r1.1.2,
    MapVec.assign g_l m r2.1.1, MapVec.assign g_u m r2.1.2⟩,
   r2.2)

/-- `IpoptSolver::get_starting_point`. -/
def get_starting_point {σ : Type} (nlp : Nlp σ) (s : σ) (n : Int) (init_x : Bool)
    (x : List Number) (init_z : Bool) (z_L z_U : List Number) (m : Int) (init_lambda : Bool)
    (lambda : List Number) : Bool × StartingPoint × σ :=
  let a : List Number × σ :=
    if init_x then
      let r := nlp.getOptimizationVars s n (MapVec x n)
      (MapVec.assign x n r.1, r.2)
    else (x, s)
  let b : (List Number × List Number) × σ :=
    if init_z then
      let r := nlp.getBoundMultipliers a.2 n (MapVec z_L n) (MapVec z_U n)
      ((MapVec.assign z_L n r.1.1, MapVec.assign z_U n r.1.2), r.2)
    else ((z_L, z_U), a.2)
  let c : List Number × σ :=
    if init_lambda then
      let r := nlp.getLambdaVars b.2 m (MapVec lambda m)
      (MapVec.assign lambda m r.1, r.2)
    else (lambda, b.2)
  (true, ⟨a.1, b.1.1, b.1.2, c.1⟩, c.2)

/-- `IpoptSolver::eval_f`; `obj_value` is the reference output, assigned before
`assert(obj_value == obj_value)` is reached. -/
def eval_f {σ : Type} (ndebug : Bool) (nlp : Nlp σ) (s : σ) (n : Int) (x : List Number)
    (new_x : Bool) : Exit × Number × σ :=
  let s1 := nlp.extractOptimizationVars s (MapVec x n) new_x
  let r := nlp.evaluateCostFun s1
  if ndebug || r.1.eqSelf then
    (.returned true, r.1, r.2)
  else
    (.aborted, r.1, r.2)

/-- `IpoptSolver::eval_grad_f`. -/
def eval_grad_f {σ : Type} (nlp : Nlp σ) (s : σ) (n : Int) (x : List Number) (new_x : Bool)
    (grad_f : List Number) : Bool × List Number × σ :=
  let s1 := nlp.extractOptimizationVars s (MapVec x n) new_x
  let r := nlp.evaluateCostGradient s1 n (MapVec grad_f n)
  (true, MapVec.assign grad_f n r.1, r.2)

/-- `IpoptSolver::eval_g`.  Its first statement is
`assert(m == nlp_->getConstraintsCount())`: unless assertions are compiled out, the NLP
object is asked for its constraint count before anything else, and the call aborts there
when the count differs from `m`. -/
def eval_g {σ : Type} (ndebug : Bool) (nlp : Nlp σ) (s : σ) (n : Int) (x : List Number)
    (new_x : Bool) (m : Int) (g : List Number) : Exit × List Number × σ :=
  let body (s0 : σ) : Exit × List Number × σ :=
    let s1 := nlp.extractOptimizationVars s0 (MapVec x n) new_x
    let r := nlp.evaluateConstraints s1 (MapVec g m)
    (.returned true, MapVec.assign g m r.1, r.2)
  if ndebug then
    body s
  else
    let c := nlp.getConstraintsCount s
    if m = c.1 then body c.2 else (.aborted, g, c.2)

/-- `IpoptSolver::eval_jac_g`. -/
def eval_jac_g {σ : Type} (nlp : Nlp σ) (s : σ) (n : Int) (x : List Number) (new_x : Bool)
    (m : Int) (nele_jac : Int) (iRow jCol : List Int) (values : Option (List Number)) :
    Bool × SparseOut × σ :=
  match values with
  | none =>
    let r := nlp.getSparsityPatternJacobian s nele_jac (MapVec iRow nele_jac) (MapVec jCol nele_jac)
    (true, ⟨MapVec.assign iRow nele_jac r.1.1, MapVec.assign jCol nele_jac r.1.2, none⟩, r.2)
  | some vals =>
    let s1 := nlp.extractOptimizationVars s (MapVec x n) new_x
    let r := nlp.evaluateConstraintJacobian s1 nele_jac (MapVec vals nele_jac)
    (true, ⟨iRow, jCol, some (MapVec.assign vals nele_jac r.1)⟩, r.2)

/-- `IpoptSolver::eval_h`. -/
def eval_h {σ : Type} (nlp : Nlp σ) (s : σ) (n : Int) (x : List Number) (new_x : Bool)
    (obj_factor : Number) (m : Int) (lambda : List Number) (new_lambda : Bool)
    (nele_hess : Int) (iRow jCol : List Int) (values : Option (List Number)) :
    Bool × SparseOut × σ :=
  match values with
  | none =>
    let r := nlp.getSparsityPatternHessian s nele_hess (MapVec iRow nele_hess) (MapVec jCol nele_hess)
    (true, ⟨MapVec.assign iRow nele_hess r.1.1, MapVec.assign jCol nele_hess r.1.2, none⟩, r.2)
  | some vals =>
    let s1 := nlp.extractOptimizationVars s (MapVec x n) new_x
    let r := nlp.evaluateHessian s1 nele_hess (MapVec vals nele_hess) obj_factor (MapVec lambda m)
    (true, ⟨iRow, jCol, some (MapVec.assign vals nele_hess r.1)⟩, r.2)

/-- `Ipopt::SolverReturn`, the status handed to `finalize_solution`. -/
inductive SolverReturn where
  | SUCCESS
  | MAXITER_EXCEEDED
  | CPUTIME_EXCEEDED
  | STOP_AT_TINY_STEP
  | STOP_AT_ACCEPTABLE_POINT
  | LOCAL_INFEASIBILITY
  | USER_REQUESTED_STOP
  | FEASIBLE_POINT_FOUND
  | DIVERGING_ITERATES
  | RESTORATION_FAILURE
  | ERROR_IN_STEP_COMPUTATION
  | INVALID_NUMBER_DETECTED
  | TOO_FEW_DEGREES_OF_FREEDOM
  | INVALID_OPTION
  | OUT_OF_MEMORY
  | INTERNAL_ERROR
  | UNASSIGNED
  deriving DecidableEq, Repr

/-- `IpoptSolver::finalize_solution`; `ip_data` and `ip_cq` are not used by the body. -/
def finalize_solution {σ : Type} (nlp : Nlp σ) (s : σ) (status : SolverReturn) (n : Int)
    (x z_L z_U : List Number) (m : Int) (g lambda : List Number) (obj_value : Number) : σ :=
  nlp.extractIpoptSolution s (MapVec x n) (MapVec z_L n) (MapVec z_U n) (MapVec lambda m)

/-! ## The engine and the solve call -/

/-- The callback interface `Ipopt::TNLP` through which the engine reaches the adapter.
The two callbacks that can be left by a failed assertion say how they were left. -/
structure TNLP (τ : Type) where
  get_nlp_info : τ → Bool × NlpInfo × τ
  get_bounds_info : τ → Int → List Number → List Number → Int → List Number → List Number →
    Bool × BoundsInfo × τ
  get_starting_point : τ → Int → Bool → List Number → Bool → List Number → List Number →
    Int → Bool → List Number → Bool × StartingPoint × τ
  eval_f : τ → Int → List Number → Bool → Exit × Number × τ
  eval_grad_f : τ → Int → List Number → Bool → List Number → Bool × List Number × τ
  eval_g : τ → Int → List Number → Bool → Int → List Number → Exit × List Number × τ
  eval_jac_g : τ → Int → List Number → Bool → Int → Int → List Int → List Int →
    Option (List Number) → Bool × SparseOut × τ
  eval_h : τ → Int → List Number → Bool → Number → Int → List Number → Bool → Int →
    List Int → List Int → Option (List Number) → Bool × SparseOut × τ
  finalize_solution : τ → SolverReturn → Int → List Number → List Number → List Number →
    Int → List Number → List Number → Number → τ

/-- The adapter as the engine sees it (`this` passed to `OptimizeTNLP`), in the build
given by `ndebug`. -/
def IpoptSolver.asTNLP {σ : Type} (ndebug : Bool) (nlp : Nlp σ) : TNLP σ where
  get_nlp_info := ct.optcon.get_nlp_info nlp
  get_bounds_info := ct.optcon.get_bounds_info nlp
  get_starting_point := ct.optcon.get_starting_point nlp
  eval_f := ct.optcon.eval_f ndebug nlp
  eval_grad_f := ct.optcon.eval_grad_f nlp
  eval_g := ct.optcon.eval_g ndebug nlp
  eval_jac_g := ct.optcon.eval_jac_g nlp
  eval_h := ct.optcon.eval_h nlp
  finalize_solution := ct.optcon.finalize_solution nlp

/-- The two engine entry points that `solve` uses.  `Initialize()` takes no argument;
`OptimizeTNLP` receives the callbacks and the state they act on.  The record describes
the calls that return to `solve`. -/
structure IpoptEngine (ε τ : Type) where
  Initialize : IpoptApplication ε → ApplicationReturnStatus × IpoptApplication ε
  OptimizeTNLP : IpoptApplication ε → TNLP τ → τ →
    ApplicationReturnStatus × IpoptApplication ε × τ

/-- `IpoptSolver::solve`.  The first component is the returned `bool`, or the message of
the `std::runtime_error` thrown; the second is the adapter when the call is left.  The
iteration count and final objective read in the success branch are only printed. -/
def solve {σ ε : Type} (ndebug : Bool) (eng : IpoptEngine ε σ) (nlp : Nlp σ)
    (s : IpoptSolver σ ε) : Except String Bool × IpoptSolver σ ε :=
  let r := eng.Initialize s.ipoptApp_
  let s := { s with status_ := r.1, ipoptApp_ := r.2 }
  if s.status_ = .Solve_Succeeded then
    let r := eng.OptimizeTNLP s.ipoptApp_ (IpoptSolver.asTNLP ndebug nlp) s.nlp_
    let s := { s with status_ := r.1, ipoptApp_ := r.2.1, nlp_ := r.2.2 }
    if s.status_ = .Solve_Succeeded ∨ s.status_ = .Solved_To_Acceptable_Level then
      (.ok true, s)
    else
      (.ok false, s)
  else
    (.error "NLP initialization failed", s)

/-! ## Call records

To speak about which collaborator methods a call invokes, and in which order, an NLP
object or an engine is wrapped so that each of its methods also appends a record of the
invocation to a list carried next to its state.  The wrapped object behaves as the
original one does. -/

/-- One invocation of a method of the NLP object, with the scalar arguments and the
read-only vectors it was given. -/
inductive NlpCall where
  | getVarCount
  | getConstraintsCount
  | getNonZeroJacobianCount
  | getNonZeroHessianCount
  | getVariableBounds (n : Int)
  | getConstraintBounds (m : Int)
  | getOptimizationVars (n : Int)
  | getBoundMultipliers (n : Int)
  | getLambdaVars (m : Int)
  | extractOptimizationVars (x : List Number) (new_x : Bool)
  | evaluateCostFun
  | evaluateCostGradient (n : Int)
  | evaluateConstraints
  | getSparsityPatternJacobian (nele_jac : Int)
  | evaluateConstraintJacobian (nele_jac : Int)
  | getSparsityPatternHessian (nele_hess : Int)
  | evaluateHessian (nele_hess : Int) (obj_factor : Number) (lambda : List Number)
  | extractIpoptSolution (x z_L z_U lambda : List Number)
  deriving DecidableEq, Repr

/-- The NLP object with a record of every invocation appended to the list in its state. -/
def Nlp.recorded {σ : Type} (nlp : Nlp σ) : Nlp (σ × List NlpCall) where
  getVarCount t :=
    let r := nlp.getVarCount t.1
    (r.1, r.2, t.2 ++ [.getVarCount])
  getConstraintsCount t :=
    let r := nlp.getConstraintsCount t.1
    (r.1, r.2, t.2 ++ [.getConstraintsCount])
  getNonZeroJacobianCount t :=
    let r := nlp.getNonZeroJacobianCount t.1
    (r.1, r.2, t.2 ++ [.getNonZeroJacobianCount])
  getNonZeroHessianCount t :=
    let r := nlp.getNonZeroHessianCount t.1
    (r.1, r.2, t.2 ++ [.getNonZeroHessianCount])
  getVariableBounds t lo up n :=
    let r := nlp.getVariableBounds t.1 lo up n
    (r.1, r.2, t.2 ++ [.getVariableBounds n])
  getConstraintBounds t lo up m :=
    let r := nlp.getConstraintBounds t.1 lo up m
    (r.1, r.2, t.2 ++ [.getConstraintBounds m])
  getOptimizationVars t n v :=
    let r := nlp.getOptimizationVars t.1 n v
    (r.1, r.2, t.2 ++ [.getOptimizationVars n])
  getBoundMultipliers t n lo up :=
    let r := nlp.getBoundMultipliers t.1 n lo up
    (r.1, r.2, t.2 ++ [.getBoundMultipliers n])
  getLambdaVars t m v :=
    let r := nlp.getLambdaVars t.1 m v
    (r.1, r.2, t.2 ++ [.getLambdaVars m])
  extractOptimizationVars t x new_x :=
    (nlp.extractOptimizationVars t.1 x new_x, t.2 ++ [.extractOptimizationVars x new_x])
  evaluateCostFun t :=
    let r := nlp.evaluateCostFun t.1
    (r.1, r.2, t.2 ++ [.evaluateCostFun])
  evaluateCostGradient t n v :=
    let r := nlp.evaluateCostGradient t.1 n v
    (r.1, r.2, t.2 ++ [.evaluateCostGradient n])
  evaluateConstraints t v :=
    let r := nlp.evaluateConstraints t.1 v
    (r.1, r.2, t.2 ++ [.evaluateConstraints])
  getSparsityPatternJacobian t nele rows cols :=
    let r := nlp.getSparsityPatternJacobian t.1 nele rows cols
    (r.1, r.2, t.2 ++ [.getSparsityPatternJacobian nele])
  evaluateConstraintJacobian t nele v :=
    let r := nlp.evaluateConstraintJacobian t.1 nele v
    (r.1, r.2, t.2 ++ [.evaluateConstraintJacobian nele])
  getSparsityPatternHessian t nele rows cols :=
    let r := nlp.getSparsityPatternHessian t.1 nele rows cols
    (r.1, r.2, t.2 ++ [.getSparsityPatternHessian nele])
  evaluateHessian t nele v obj_factor lambda :=
    let r := nlp.evaluateHessian t.1 nele v obj_factor lambda
    (r.1, r.2, t.2 ++ [.evaluateHessian nele obj_factor lambda])
  extractIpoptSolution t x z_L z_U lambda :=
    (nlp.extractIpoptSolution t.1 x z_L z_U lambda, t.2 ++ [.extractIpoptSolution x z_L z_U lambda])

/-- One invocation of an entry point of the engine. -/
inductive EngineCall where
  | Initialize
  | OptimizeTNLP
  deriving DecidableEq, Repr

/-- The engine with a record of every invocation appended to the list in its state. -/
def IpoptEngine.recorded {ε τ : Type} (eng : IpoptEngine ε τ) :
    IpoptEngine (ε × List EngineCall) τ where
  Initialize app :=
    let r := eng.Initialize ⟨app.options, app.core.1⟩
    (r.1, ⟨r.2.options, r.2.core, app.core.2 ++ [.Initialize]⟩)
  OptimizeTNLP app tnlp t :=
    let r := eng.OptimizeTNLP ⟨app.options, app.core.1⟩ tnlp t
    (r.1, ⟨r.2.1.options, r.2.1.core, app.core.2 ++ [.OptimizeTNLP]⟩, r.2.2)

/-- The records of the engine invocations made so far. -/
def IpoptSolver.engineCalls {σ ε : Type} (s : IpoptSolver σ (ε × List EngineCall)) :
    List EngineCall :=
  s.ipoptApp_.core.2

/-! ## Concrete collaborators

Small collaborators on which the definitions can be evaluated. -/

/-- An NLP object with two variables and one constraint whose state is the last vector it
was asked to extract.  Its Hessian pattern is the lower-left entry `(1, 0)`. -/
def sampleNlp : Nlp (List Number) where
  getVarCount s := (2, s)
  getConstraintsCount s := (1, s)
  getNonZeroJacobianCount s := (2, s)
  getNonZeroHessianCount s := (1, s)
  getVariableBounds s _ _ _ := (([(.dec 0 0), (.dec 0 0)], [(.dec 10 0), (.dec 10 0)]), s)
  getConstraintBounds s _ _ _ := (([(.dec 1 0)], [(.dec 1 0)]), s)
  getOptimizationVars s _ _ := (s, s)
  getBoundMultipliers s _ _ _ := (([(.dec 0 0), (.dec 0 0)], [(.dec 0 0), (.dec 0 0)]), s)
  getLambdaVars s _ _ := ([(.dec 0 0)], s)
  extractOptimizationVars _ x _ := x
  evaluateCostFun s := (s.headD (.dec 0 0), s)
  evaluateCostGradient s _ _ := ([(.dec 1 0), (.dec 1 0)], s)
  evaluateConstraints s _ := ([s.headD (.dec 0 0)], s)
  getSparsityPatternJacobian s _ _ _ := (([0, 0], [0, 1]), s)
  evaluateConstraintJacobian s _ _ := ([(.dec 1 0), (.dec 1 0)], s)
  getSparsityPatternHessian s _ _ _ := (([1], [0]), s)
  evaluateHessian s _ _ _ _ := ([(.dec 0 0)], s)
  extractIpoptSolution _ x _ _ _ := x

/-- The same NLP object, except that its Hessian pattern is the upper-right entry
`(0, 1)`. -/
def upperNlp : Nlp (List Number) :=
  { sampleNlp with getSparsityPatternHessian := fun s _ _ _ => (([0], [1]), s) }

/-- An engine that reports the given statuses; its optimize call asks the adapter for the
problem sizes and for one objective value. -/
def sampleEngine {τ : Type} (initStatus optStatus : ApplicationReturnStatus) :
    IpoptEngine Unit τ where
  Initialize app := (initStatus, app)
  OptimizeTNLP app tnlp t :=
    let r1 := tnlp.get_nlp_info t
    let r2 := tnlp.eval_f r1.2.2 r1.2.1.n [(.dec 5 0), (.dec 5 0)] true
    (optStatus, app, r2.2.2)

/-- Settings with the given derivative-test mode and linear solver. -/
def sampleSettings (derivativeTest linearSolver : String) : NlpSolverSettings :=
  ⟨{ tol_ := (.dec 1 (-8)), constr_viol_tol_ := (.dec 1 (-4)), max_iter_ := 200,
     linear_scaling_on_demand_ := "yes", hessian_approximation_ := "limited-memory",
     printLevel_ := 5, print_user_options_ := "no", derivativeTest_ := derivativeTest,
     derivativeTestTol_ := (.dec 1 (-4)), derivativeTestPerturbation_ := (.dec 1 (-8)),
     point_perturbation_radius_ := (.dec 10 0), linearSystemScaling_ := "mc19",
     linear_solver_ := linearSolver }⟩

/-- A freshly constructed adapter around the NLP state `nlp0`: no option set on the
engine, no engine entry point invoked yet. -/
def sampleSolver {σ : Type} (nlp0 : σ) : IpoptSolver σ (Unit × List EngineCall) where
  nlp_ := nlp0
  settings_ := (sampleSettings "none" "mumps").ipoptSettings_
  ipoptApp_ := ⟨OptionsList.empty, (), []⟩
  status_ := .Internal_Error
  isInitialized_ := false

/-- The freshly constructed adapter around the sample NLP object's initial state. -/
def freshSolver : IpoptSolver (List Number) (Unit × List EngineCall) :=
  sampleSolver []

/-! ## Lemmas on the option table and on views -/

namespace OptionsList

theorem SetNumericValue_apply (o : OptionsList) (tag : String) (v : Number) (t : String) :
    o.SetNumericValue tag v t = if t = tag then some (.numeric v) else o t := rfl

theorem SetIntegerValue_apply (o : OptionsList) (tag : String) (v : Int) (t : String) :
    o.SetIntegerValue tag v t = if t = tag then some (.integer v) else o t := rfl

theorem SetStringValue_apply (o : OptionsList) (tag : String) (v : String) (t : String) :
    o.SetStringValue tag v t = if t = tag then some (.string v) else o t := rfl

theorem SetStringValueIfUnset_apply (o : OptionsList) (tag : String) (v : String)
    (t : String) :
    o.SetStringValueIfUnset tag v t =
      if t = tag then (o tag).orElse (fun _ => some (.string v)) else o t := by
  unfold SetStringValueIfUnset
  cases h : o tag with
  | none => simp [SetStringValue]
  | some w =>
    by_cases ht : t = tag
    · simp [ht, h]
    · simp [ht]

end OptionsList

theorem MapVec.assign_length {α : Type} (buf : List α) (k : Int) (v : List α) :
    (MapVec.assign buf k v).length = buf.length := by
  simp only [MapVec.assign, List.length_append, List.length_take, List.length_drop]
  omega

theorem MapVec.assign_drop {α : Type} (buf : List α) (k : Int) (v : List α) :
    (MapVec.assign buf k v).drop k.toNat = buf.drop k.toNat := by
  simp only [MapVec.assign]
  rw [List.drop_append_eq_append_drop]
  have h1 : (List.take (min k.toNat buf.length) v).length ≤ k.toNat := by
    simp only [List.length_take]
    omega
  rw [List.drop_eq_nil_of_le h1, List.nil_append, List.drop_drop]
  congr 1
  omega

theorem MapVec.assign_full {α : Type} (buf : List α) (k : Int) (v : List α)
    (hbuf : (buf.length : Int) = k) (hv : v.length = buf.length) :
    MapVec.assign buf k v = v := by
  have hk : k.toNat = buf.length := by omega
  simp only [MapVec.assign, hk, Nat.min_self, ← hv, List.take_length]
  rw [hv, List.drop_length, List.append_nil]

theorem MapVec.of_length {α : Type} (buf : List α) (k : Int)
    (hbuf : (buf.length : Int) = k) : MapVec buf k = buf := by
  have hk : k.toNat = buf.length := by omega
  simp [MapVec, hk]

/-! ## Warm start and configuration -/

/-- C5: after `prepareWarmStart` the seven warm-start options hold the prescribed values,
every option other than these seven and `max_iter` is as before, and the NLP object
(hence what `get_nlp_info` reports), the stored settings, the status and the
initialisation flag are as before. -/
theorem prepareWarmStart_frame {σ ε : Type} (s : IpoptSolver σ ε) (maxIterations : Nat) :
    let s' := prepareWarmStart s maxIterations
    s'.ipoptApp_.options "warm_start_init_point" = some (.string "yes") ∧
    s'.ipoptApp_.options "warm_start_bound_push" = some (.numeric (.dec 1 (-9))) ∧
    s'.ipoptApp_.options "warm_start_bound_frac" = some (.numeric (.dec 1 (-9))) ∧
    s'.ipoptApp_.options "warm_start_slack_bound_frac" = some (.numeric (.dec 1 (-9))) ∧
    s'.ipoptApp_.options "warm_start_slack_bound_push" = some (.numeric (.dec 1 (-9))) ∧
    s'.ipoptApp_.options "warm_start_mult_bound_push" = some (.numeric (.dec 1 (-9))) ∧
    s'.ipoptApp_.options "derivative_test" = some (.string "none") ∧
    (∀ tag : String,
      tag ∉ ["warm_start_init_point", "warm_start_bound_push", "warm_start_bound_frac",
        "warm_start_slack_bound_frac", "warm_start_slack_bound_push",
        "warm_start_mult_bound_push", "derivative_test", "max_iter"] →
      s'.ipoptApp_.options tag = s.ipoptApp_.options tag) ∧
    s'.nlp_ = s.nlp_ ∧ s'.settings_ = s.settings_ ∧ s'.status_ = s.status_ ∧
    s'.isInitialized_ = s.isInitialized_ ∧ s'.ipoptApp_.core = s.ipoptApp_.core ∧
    (∀ nlp : Nlp σ, get_nlp_info nlp s'.nlp_ = get_nlp_info nlp s.nlp_) := by
  intro s'
  refine ⟨?_, ?_, ?_, ?_, ?_, ?_, ?_, ?_, rfl, rfl, rfl, rfl, rfl, fun _ => rfl⟩
  all_goals
    first
    | (intro tag htag
       simp only [List.mem_cons, List.mem_singleton, List.not_mem_nil, not_or, or_false]
         at htag
       obtain ⟨h1, h2, h3, h4, h5, h6, h7, h8⟩ := htag
       simp [s', prepareWarmStart, OptionsList.SetNumericValue_apply,
         OptionsList.SetIntegerValue_apply, OptionsList.SetStringValue_apply, *])
    | simp [s', prepareWarmStart, OptionsList.SetNumericValue_apply,
        OptionsList.SetIntegerValue_apply, OptionsList.SetStringValue_apply]

/-- C6 (as amended): for every `maxIterations`, after `prepareWarmStart` the option
`max_iter` holds `maxIterations` narrowed to a signed 32-bit integer, that is the value
in `[-2^31, 2^31)` congruent to `maxIterations` modulo `2^32`; it equals `maxIterations`
for every `maxIterations` up to `INT_MAX = 2^31 - 1` and differs from it for every larger
one. -/
theorem prepareWarmStart_max_iter {σ ε : Type} (s : IpoptSolver σ ε) (maxIterations : Nat) :
    let opt := (prepareWarmStart s maxIterations).ipoptApp_.options "max_iter"
    opt = some (.integer (toInt maxIterations)) ∧
    (-2 ^ 31 ≤ toInt maxIterations ∧ toInt maxIterations < 2 ^ 31 ∧
      ((maxIterations : Int) - toInt maxIterations) % 2 ^ 32 = 0) ∧
    (maxIterations < 2 ^ 31 → opt = some (.integer (maxIterations : Int))) ∧
    (2 ^ 31 ≤ maxIterations → opt ≠ some (.integer (maxIterations : Int))) := by
  intro opt
  have hopt : opt = some (.integer (toInt maxIterations)) := by
    simp [opt, prepareWarmStart, OptionsList.SetNumericValue_apply,
      OptionsList.SetIntegerValue_apply, OptionsList.SetStringValue_apply]
  have hrange : -2 ^ 31 ≤ toInt maxIterations ∧ toInt maxIterations < 2 ^ 31 ∧
      ((maxIterations : Int) - toInt maxIterations) % 2 ^ 32 = 0 := by
    unfold toInt
    split <;> omega
  have hsmall : maxIterations < 2 ^ 31 → toInt maxIterations = (maxIterations : Int) := by
    intro h
    unfold toInt
    split <;> omega
  have hlarge : 2 ^ 31 ≤ maxIterations → toInt maxIterations ≠ (maxIterations : Int) := by
    intro h
    have := hrange.2.1
    omega
  refine ⟨hopt, hrange, ?_, ?_⟩
  · intro h
    rw [hopt, hsmall h]
  · intro h heq
    rw [hopt] at heq
    injection heq with heq
    injection heq with heq
    exact hlarge h heq

/-- C6, at a concrete input: an iteration cap of one. -/
theorem prepareWarmStart_max_iter_witness :
    (1 : Nat) < 2 ^ 31 ∧
      (prepareWarmStart freshSolver 1).ipoptApp_.options "max_iter" = some (.integer 1) :=
  ⟨by decide, (prepareWarmStart_max_iter freshSolver 1).2.2.1 (by decide)⟩

/-- C6 fails as stated: for `maxIterations = 2^31` the narrowing to `int` yields
`-2^31`, so `max_iter` does not equal the value the caller supplied. -/
theorem prepareWarmStart_max_iter_counterexample :
    (prepareWarmStart freshSolver 2147483648).ipoptApp_.options "max_iter"
        = some (.integer (-2147483648)) ∧
      (prepareWarmStart freshSolver 2147483648).ipoptApp_.options "max_iter"
        ≠ some (.integer 2147483648) := by
  have hopt : (prepareWarmStart freshSolver 2147483648).ipoptApp_.options "max_iter"
      = some (.integer (-2147483648)) := by
    simp [prepareWarmStart, OptionsList.SetNumericValue_apply,
      OptionsList.SetIntegerValue_apply, OptionsList.SetStringValue_apply]
    decide
  refine ⟨hopt, ?_⟩
  rw [hopt]
  decide

/-- C7 (as amended): after `configureDerived` the options `tol`, `constr_viol_tol` and
`max_iter` equal the values in `settings.ipoptSettings_` whatever was set before; each of
`linear_solver`, `derivative_test` and `linear_system_scaling` keeps the value it already
had and takes the value in `settings.ipoptSettings_` only when it was unset; the stored
settings are `settings.ipoptSettings_` and `isInitialized_` is true. -/
theorem configureDerived_options {σ ε : Type} (s : IpoptSolver σ ε)
    (settings : NlpSolverSettings) :
    let s' := configureDerived s settings
    s'.ipoptApp_.options "tol" = some (.numeric settings.ipoptSettings_.tol_) ∧
    s'.ipoptApp_.options "constr_viol_tol"
      = some (.numeric settings.ipoptSettings_.constr_viol_tol_) ∧
    s'.ipoptApp_.options "max_iter" = some (.integer settings.ipoptSettings_.max_iter_) ∧
    s'.ipoptApp_.options "linear_solver"
      = (s.ipoptApp_.options "linear_solver").orElse
          (fun _ => some (.string settings.ipoptSettings_.linear_solver_)) ∧
    s'.ipoptApp_.options "derivative_test"
      = (s.ipoptApp_.options "derivative_test").orElse
          (fun _ => some (.string settings.ipoptSettings_.derivativeTest_)) ∧
    s'.ipoptApp_.options "linear_system_scaling"
      = (s.ipoptApp_.options "linear_system_scaling").orElse
          (fun _ => some (.string settings.ipoptSettings_.linearSystemScaling_)) ∧
    s'.settings_ = settings.ipoptSettings_ ∧
    s'.isInitialized_ = true := by
  intro s'
  refine ⟨?_, ?_, ?_, ?_, ?_, ?_, rfl, rfl⟩ <;>
    simp [s', configureDerived, setSolverOptions, OptionsList.SetNumericValue_apply,
      OptionsList.SetIntegerValue_apply, OptionsList.SetStringValue_apply,
      OptionsList.SetStringValueIfUnset_apply]

/-- C7 fails as stated: after `prepareWarmStart` has set `derivative_test` to `none`, a
`configureDerived` whose settings ask for `first-order` leaves it at `none`; and a second
`configureDerived` asking for linear solver `ma57` leaves the `mumps` of the first. -/
theorem configureDerived_options_counterexample :
    (configureDerived (prepareWarmStart freshSolver 1)
        (sampleSettings "first-order" "mumps")).ipoptApp_.options "derivative_test"
      = some (.string "none") ∧
    (sampleSettings "first-order" "mumps").ipoptSettings_.derivativeTest_ = "first-order" ∧
    (configureDerived (configureDerived freshSolver (sampleSettings "none" "mumps"))
        (sampleSettings "none" "ma57")).ipoptApp_.options "linear_solver"
      = some (.string "mumps") ∧
    (sampleSettings "none" "ma57").ipoptSettings_.linear_solver_ = "ma57" := by
  refine ⟨?_, rfl, ?_, rfl⟩ <;>
    simp [configureDerived, setSolverOptions, prepareWarmStart, freshSolver, sampleSolver,
      sampleSettings,
      OptionsList.empty, OptionsList.SetNumericValue_apply,
      OptionsList.SetIntegerValue_apply, OptionsList.SetStringValue_apply,
      OptionsList.SetStringValueIfUnset_apply]

/-! ## The solve call -/

/-- C1: in either build, when `Initialize` reports `Solve_Succeeded`, `solve` returns
`true` exactly when the status of `OptimizeTNLP` is `Solve_Succeeded` or
`Solved_To_Acceptable_Level` and `false` exactly when it is any other status; `status_`
then holds that status, and the engine was entered by one `Initialize` followed by one
`OptimizeTNLP`. -/
theorem solve_true_iff_status {σ ε : Type} (ndebug : Bool) (eng : IpoptEngine ε σ)
    (nlp : Nlp σ) (s : IpoptSolver σ (ε × List EngineCall))
    (hinit : ( eng.recorded.Initialize s.ipoptApp_).1 = .Solve_Succeeded) :
    let opt := eng.recorded.OptimizeTNLP ( eng.recorded.Initialize s.ipoptApp_).2
      (IpoptSolver.asTNLP ndebug nlp) s.nlp_
    let r := solve ndebug eng.recorded nlp s
    (r.1 = .ok true ↔ (opt.1 = .Solve_Succeeded ∨ opt.1 = .Solved_To_Acceptable_Level)) ∧
    (r.1 = .ok false ↔ ¬ (opt.1 = .Solve_Succeeded ∨ opt.1 = .Solved_To_Acceptable_Level)) ∧
    r.2.status_ = opt.1 ∧
    r.2.nlp_ = opt.2.2 ∧
    r.2.engineCalls = s.engineCalls ++ [.Initialize, .OptimizeTNLP] := by
  intro opt r
  have hr : r = solve ndebug eng.recorded nlp s := rfl
  unfold solve at hr
  simp only [hinit, if_true] at hr
  by_cases hst : opt.1 = .Solve_Succeeded ∨ opt.1 = .Solved_To_Acceptable_Level
  · have hst' := hst
    simp only [opt] at hst'
    rw [if_pos hst'] at hr
    refine ⟨?_, ?_, ?_, ?_, ?_⟩
    · simp [hr, hst]
    · simp [hr, hst]
    · rw [hr]
    · rw [hr]
    · rw [hr]
      simp [IpoptSolver.engineCalls, IpoptEngine.recorded]
  · have hst' := hst
    simp only [opt] at hst'
    rw [if_neg hst'] at hr
    refine ⟨?_, ?_, ?_, ?_, ?_⟩
    · simp [hr, hst]
    · simp [hr, hst]
    · rw [hr]
    · rw [hr]
    · rw [hr]
      simp [IpoptSolver.engineCalls, IpoptEngine.recorded]

/-- C1, at a concrete input: an engine that stops at the iteration limit makes `solve`
return `false`, with the raw status kept and one `OptimizeTNLP` call. -/
theorem solve_true_iff_status_witness :
    (solve false (sampleEngine .Solve_Succeeded .Maximum_Iterations_Exceeded).recorded sampleNlp
        (sampleSolver [])).1 = .ok false ∧
      (solve false (sampleEngine .Solve_Succeeded .Maximum_Iterations_Exceeded).recorded sampleNlp
        (sampleSolver [])).2.status_ = .Maximum_Iterations_Exceeded ∧
      (solve false (sampleEngine .Solve_Succeeded .Maximum_Iterations_Exceeded).recorded sampleNlp
        (sampleSolver [])).2.engineCalls = [.Initialize, .OptimizeTNLP] :=
  have h := solve_true_iff_status false
    (sampleEngine .Solve_Succeeded .Maximum_Iterations_Exceeded) sampleNlp (sampleSolver [])
    rfl
  ⟨h.2.1.2 (by decide), h.2.2.1, h.2.2.2.2⟩

/-- C2: in either build, when `Initialize` reports any status other than
`Solve_Succeeded`, `solve` throws
the runtime error "NLP initialization failed"; the only engine entry point invoked is
`Initialize`, so `OptimizeTNLP`, the one place the callbacks are handed to the engine, is
never entered; no method of the NLP object is invoked and its state is as before. -/
theorem solve_throws_on_failed_initialize {σ ε : Type} (ndebug : Bool)
    (eng : IpoptEngine ε (σ × List NlpCall)) (nlp : Nlp σ)
    (s : IpoptSolver (σ × List NlpCall) (ε × List EngineCall))
    (hinit : ( eng.recorded.Initialize s.ipoptApp_).1 ≠ .Solve_Succeeded) :
    let r := solve ndebug eng.recorded nlp.recorded s
    r.1 = .error "NLP initialization failed" ∧
    r.2.engineCalls = s.engineCalls ++ [.Initialize] ∧
    EngineCall.OptimizeTNLP ∉ r.2.engineCalls.drop s.engineCalls.length ∧
    r.2.nlp_ = s.nlp_ ∧
    r.2.status_ = ( eng.recorded.Initialize s.ipoptApp_).1 := by
  intro r
  have hr : r = solve ndebug eng.recorded nlp.recorded s := rfl
  unfold solve at hr
  simp only [hinit, if_false] at hr
  have hcalls : r.2.engineCalls = s.engineCalls ++ [.Initialize] := by
    rw [hr]
    simp [IpoptSolver.engineCalls, IpoptEngine.recorded]
  refine ⟨by rw [hr], hcalls, ?_, by rw [hr], by rw [hr]⟩
  rw [hcalls]
  simp

/-- C2, at a concrete input: an engine whose `Initialize` reports `Invalid_Option`. -/
theorem solve_throws_on_failed_initialize_witness :
    (solve false (sampleEngine .Invalid_Option .Solve_Succeeded).recorded sampleNlp.recorded
        (sampleSolver ([], []))).1 = .error "NLP initialization failed" ∧
      (solve false (sampleEngine .Invalid_Option .Solve_Succeeded).recorded sampleNlp.recorded
        (sampleSolver ([], []))).2.engineCalls = [.Initialize] ∧
      (solve false (sampleEngine .Invalid_Option .Solve_Succeeded).recorded sampleNlp.recorded
        (sampleSolver ([], []))).2.nlp_ = ([], []) :=
  have h := solve_throws_on_failed_initialize false
    (sampleEngine .Invalid_Option .Solve_Succeeded) sampleNlp (sampleSolver ([], []))
    (by decide)
  ⟨h.1, h.2.1, h.2.2.2.1⟩

/-! ## The callbacks -/

/-- C3: `get_starting_point` returns true; an array whose flag is false comes back
unchanged; the NLP object is asked for exactly the flagged groups, in the order `x`,
bound multipliers, `lambda`; an array that is written keeps its length and changes only
within its first `n` (for `lambda`: `m`) entries; with all flags false nothing is written
and no method of the NLP object is invoked. -/
theorem get_starting_point_frame {σ : Type} (nlp : Nlp σ) (s : σ) (calls : List NlpCall)
    (n : Int) (init_x : Bool) (x : List Number) (init_z : Bool) (z_L z_U : List Number)
    (m : Int) (init_lambda : Bool) (lambda : List Number) :
    let r := get_starting_point nlp.recorded (s, calls) n init_x x init_z z_L z_U m
      init_lambda lambda
    r.1 = true ∧
    (init_x = false → r.2.1.x = x) ∧
    (init_z = false → r.2.1.z_L = z_L ∧ r.2.1.z_U = z_U) ∧
    (init_lambda = false → r.2.1.lambda = lambda) ∧
    r.2.2.2 = calls ++ (if init_x then [NlpCall.getOptimizationVars n] else [])
      ++ (if init_z then [NlpCall.getBoundMultipliers n] else [])
      ++ (if init_lambda then [NlpCall.getLambdaVars m] else []) ∧
    (r.2.1.x.length = x.length ∧ r.2.1.x.drop n.toNat = x.drop n.toNat) ∧
    (r.2.1.z_L.length = z_L.length ∧ r.2.1.z_L.drop n.toNat = z_L.drop n.toNat) ∧
    (r.2.1.z_U.length = z_U.length ∧ r.2.1.z_U.drop n.toNat = z_U.drop n.toNat) ∧
    (r.2.1.lambda.length = lambda.length ∧
      r.2.1.lambda.drop m.toNat = lambda.drop m.toNat) ∧
    (init_x = false → init_z = false → init_lambda = false →
      r.2.1 = ⟨x, z_L, z_U, lambda⟩ ∧ r.2.2 = (s, calls)) := by
  intro r
  cases init_x <;> cases init_z <;> cases init_lambda <;>
    simp [r, get_starting_point, Nlp.recorded, MapVec.assign_length, MapVec.assign_drop]

/-- C4: in `eval_jac_g` and in `eval_h` the branch depends on `values` alone.  With
`values` absent the NLP object is asked for the sparsity pattern and for nothing else, the
two index arrays receive what it wrote into their first `nele` entries, and `values`
stays absent.  With `values` present the NLP object extracts `x` and then evaluates the
Jacobian (the Hessian), `values` receives what it wrote into its first `nele` entries, and
the two index arrays are unchanged. -/
theorem eval_jac_g_eval_h_phase {σ : Type} (nlp : Nlp σ) (s : σ) (calls : List NlpCall)
    (n : Int) (x : List Number) (new_x : Bool) (obj_factor : Number) (m : Int)
    (lambda : List Number) (new_lambda : Bool) (nele : Int) (iRow jCol : List Int)
    (vals : List Number) :
    let jacS := eval_jac_g nlp.recorded (s, calls) n x new_x m nele iRow jCol none
    let jacV := eval_jac_g nlp.recorded (s, calls) n x new_x m nele iRow jCol (some vals)
    let hesS := eval_h nlp.recorded (s, calls) n x new_x obj_factor m lambda new_lambda nele
      iRow jCol none
    let hesV := eval_h nlp.recorded (s, calls) n x new_x obj_factor m lambda new_lambda nele
      iRow jCol (some vals)
    let patJ := nlp.getSparsityPatternJacobian s nele (MapVec iRow nele) (MapVec jCol nele)
    let patH := nlp.getSparsityPatternHessian s nele (MapVec iRow nele) (MapVec jCol nele)
    let s1 := nlp.extractOptimizationVars s (MapVec x n) new_x
    (jacS.2.1.values = none ∧
      jacS.2.2.2 = calls ++ [NlpCall.getSparsityPatternJacobian nele] ∧
      jacS.2.1.iRow = MapVec.assign iRow nele patJ.1.1 ∧
      jacS.2.1.jCol = MapVec.assign jCol nele patJ.1.2 ∧
      jacS.2.1.iRow.drop nele.toNat = iRow.drop nele.toNat ∧
      jacS.2.1.jCol.drop nele.toNat = jCol.drop nele.toNat) ∧
    (jacV.2.1.iRow = iRow ∧ jacV.2.1.jCol = jCol ∧
      jacV.2.2.2 = calls ++ [NlpCall.extractOptimizationVars (MapVec x n) new_x,
        NlpCall.evaluateConstraintJacobian nele] ∧
      jacV.2.1.values = some (MapVec.assign vals nele
        (nlp.evaluateConstraintJacobian s1 nele (MapVec vals nele)).1)) ∧
    (hesS.2.1.values = none ∧
      hesS.2.2.2 = calls ++ [NlpCall.getSparsityPatternHessian nele] ∧
      hesS.2.1.iRow = MapVec.assign iRow nele patH.1.1 ∧
      hesS.2.1.jCol = MapVec.assign jCol nele patH.1.2 ∧
      hesS.2.1.iRow.drop nele.toNat = iRow.drop nele.toNat ∧
      hesS.2.1.jCol.drop nele.toNat = jCol.drop nele.toNat) ∧
    (hesV.2.1.iRow = iRow ∧ hesV.2.1.jCol = jCol ∧
      hesV.2.2.2 = calls ++ [NlpCall.extractOptimizationVars (MapVec x n) new_x,
        NlpCall.evaluateHessian nele obj_factor (MapVec lambda m)] ∧
      hesV.2.1.values = some (MapVec.assign vals nele
        (nlp.evaluateHessian s1 nele (MapVec vals nele) obj_factor (MapVec lambda m)).1)) := by
  intro jacS jacV hesS hesV patJ patH s1
  refine ⟨⟨rfl, ?_, rfl, rfl, ?_, ?_⟩, ⟨rfl, rfl, ?_, rfl⟩,
    ⟨rfl, ?_, rfl, rfl, ?_, ?_⟩, ⟨rfl, rfl, ?_, rfl⟩⟩ <;>
    simp [jacS, jacV, hesS, hesV, eval_jac_g, eval_h, Nlp.recorded, MapVec.assign_drop]

/-- C9: for `x` of length `n` and in either build.  `eval_f` invokes on the NLP object
the extraction with `(x, new_x)` once and then the cost evaluation, and nothing else;
`obj_value` is the value the cost evaluation returns in the state the extraction left; the
call returns true, unless assertions are enabled and that value is a NaN.  `eval_grad_f`
invokes the extraction with `(x, new_x)` and then the gradient evaluation.  `eval_g`, with
assertions compiled out, invokes the extraction with `(x, new_x)` and then the constraint
evaluation; with assertions enabled it first asks for the constraint count, then does the
same when the count is `m`, and aborts with neither extraction nor evaluation invoked when
it is not.  The flag `new_x` is handed on as given. -/
theorem eval_extracts_then_evaluates {σ : Type} (ndebug : Bool) (nlp : Nlp σ) (s : σ)
    (calls : List NlpCall) (n : Int) (x : List Number) (new_x : Bool) (m : Int)
    (grad_f g : List Number) (hx : (x.length : Int) = n) :
    let s1 := nlp.extractOptimizationVars s x new_x
    let cnt := nlp.getConstraintsCount s
    let s2 := nlp.extractOptimizationVars cnt.2 x new_x
    let f := eval_f ndebug nlp.recorded (s, calls) n x new_x
    let gr := eval_grad_f nlp.recorded (s, calls) n x new_x grad_f
    let c := eval_g ndebug nlp.recorded (s, calls) n x new_x m g
    (f.2.2.2 = calls ++ [NlpCall.extractOptimizationVars x new_x, NlpCall.evaluateCostFun] ∧
      f.2.1 = (nlp.evaluateCostFun s1).1 ∧ f.2.2.1 = (nlp.evaluateCostFun s1).2 ∧
      f.1 = (if ndebug = true ∨ (nlp.evaluateCostFun s1).1 ≠ Number.nan
        then Exit.returned true else Exit.aborted)) ∧
    (gr.1 = true ∧
      gr.2.2.2 = calls ++ [NlpCall.extractOptimizationVars x new_x,
        NlpCall.evaluateCostGradient n] ∧
      gr.2.1 = MapVec.assign grad_f n (nlp.evaluateCostGradient s1 n (MapVec grad_f n)).1 ∧
      gr.2.1.length = grad_f.length) ∧
    (ndebug = true →
      c.1 = Exit.returned true ∧
      c.2.2.2 = calls ++ [NlpCall.extractOptimizationVars x new_x,
        NlpCall.evaluateConstraints] ∧
      c.2.1 = MapVec.assign g m (nlp.evaluateConstraints s1 (MapVec g m)).1 ∧
      c.2.1.length = g.length) ∧
    (ndebug = false → m = cnt.1 →
      c.1 = Exit.returned true ∧
      c.2.2.2 = calls ++ [NlpCall.getConstraintsCount,
        NlpCall.extractOptimizationVars x new_x, NlpCall.evaluateConstraints] ∧
      c.2.1 = MapVec.assign g m (nlp.evaluateConstraints s2 (MapVec g m)).1 ∧
      c.2.1.length = g.length) ∧
    (ndebug = false → m ≠ cnt.1 →
      c.1 = Exit.aborted ∧
      c.2.2.2 = calls ++ [NlpCall.getConstraintsCount] ∧
      c.2.1 = g ∧ c.2.2.1 = cnt.2) := by
  intro s1 cnt s2 f gr c
  have hview : MapVec x n = x := MapVec.of_length x n hx
  refine ⟨⟨?_, ?_, ?_, ?_⟩, ⟨rfl, ?_, ?_, ?_⟩, ?_, ?_, ?_⟩
  · simp only [f, eval_f]
    split <;> simp [Nlp.recorded, hview]
  · simp only [f, eval_f]
    split <;> simp [s1, Nlp.recorded, hview]
  · simp only [f, eval_f]
    split <;> simp [s1, Nlp.recorded, hview]
  · cases ndebug <;> cases hv : (nlp.evaluateCostFun s1).1 <;>
      simp [f, eval_f, Nlp.recorded, hview, Number.eqSelf, s1, hv] at hv ⊢
  · simp [gr, eval_grad_f, Nlp.recorded, hview]
  · simp [gr, s1, eval_grad_f, Nlp.recorded, hview]
  · simp [gr, eval_grad_f, Nlp.recorded, MapVec.assign_length]
  · intro hnd
    subst hnd
    simp [c, s1, eval_g, Nlp.recorded, hview, MapVec.assign_length]
  · intro hnd hm
    subst hnd
    simp [c, s2, cnt, eval_g, Nlp.recorded, hview, MapVec.assign_length, hm]
  · intro hnd hm
    subst hnd
    simp [c, cnt, eval_g, Nlp.recorded, hm]

/-- C9, at a concrete input, with assertions enabled: `eval_f` on the sample NLP object
with `new_x` false; `eval_g` called with the object's constraint count `1`, and with the
different count `5`; `eval_f` when the cost evaluation yields a NaN. -/
theorem eval_extracts_then_evaluates_witness :
    (eval_f false sampleNlp.recorded ([], []) 2 [(.dec 3 0), (.dec 4 0)] false).2.2.2
        = [NlpCall.extractOptimizationVars [(.dec 3 0), (.dec 4 0)] false,
          NlpCall.evaluateCostFun] ∧
      (eval_f false sampleNlp.recorded ([], []) 2 [(.dec 3 0), (.dec 4 0)] false).2.1
        = (.dec 3 0) ∧
      (eval_g false sampleNlp.recorded ([], []) 2 [(.dec 3 0), (.dec 4 0)] false 1
          [(.dec 0 0)]).2.2.2
        = [NlpCall.getConstraintsCount,
          NlpCall.extractOptimizationVars [(.dec 3 0), (.dec 4 0)] false,
          NlpCall.evaluateConstraints] ∧
      (eval_g false sampleNlp.recorded ([], []) 2 [(.dec 3 0), (.dec 4 0)] false 5
          [(.dec 0 0)]).1 = Exit.aborted ∧
      (eval_g false sampleNlp.recorded ([], []) 2 [(.dec 3 0), (.dec 4 0)] false 5
          [(.dec 0 0)]).2.2.2 = [NlpCall.getConstraintsCount] ∧
      (eval_f false sampleNlp.recorded ([], []) 2 [.nan, (.dec 4 0)] true).1
        = Exit.aborted :=
  have h := eval_extracts_then_evaluates false sampleNlp [] [] 2 [(.dec 3 0), (.dec 4 0)]
    false 1 [(.dec 0 0), (.dec 0 0)] [(.dec 0 0)] rfl
  have h5 := eval_extracts_then_evaluates false sampleNlp [] [] 2 [(.dec 3 0), (.dec 4 0)]
    false 5 [(.dec 0 0), (.dec 0 0)] [(.dec 0 0)] rfl
  have hn := eval_extracts_then_evaluates false sampleNlp [] [] 2 [.nan, (.dec 4 0)]
    true 1 [(.dec 0 0), (.dec 0 0)] [(.dec 0 0)] rfl
  ⟨h.1.1, h.1.2.1, (h.2.2.2.1 rfl rfl).2.1, (h5.2.2.2.2 rfl (by decide)).1,
    (h5.2.2.2.2 rfl (by decide)).2.1, hn.1.2.2.2⟩

/-- C10: with assertions compiled out, each of the eight boolean callbacks returns true,
for every NLP object, every state of it and every argument. -/
theorem callbacks_return_true {σ : Type} (nlp : Nlp σ) (s : σ) (n m nele : Int)
    (init_x init_z init_lambda new_x new_lambda : Bool) (obj_factor : Number)
    (x x_l x_u g_l g_u z_L z_U lambda grad_f g : List Number) (iRow jCol : List Int)
    (values : Option (List Number)) :
    (get_nlp_info nlp s).1 = true ∧
    (get_bounds_info nlp s n x_l x_u m g_l g_u).1 = true ∧
    (get_starting_point nlp s n init_x x init_z z_L z_U m init_lambda lambda).1 = true ∧
    (eval_f true nlp s n x new_x).1 = Exit.returned true ∧
    (eval_grad_f nlp s n x new_x grad_f).1 = true ∧
    (eval_g true nlp s n x new_x m g).1 = Exit.returned true ∧
    (eval_jac_g nlp s n x new_x m nele iRow jCol values).1 = true ∧
    (eval_h nlp s n x new_x obj_factor m lambda new_lambda nele iRow jCol values).1
      = true := by
  refine ⟨rfl, rfl, rfl, rfl, rfl, rfl, ?_, ?_⟩
  · cases values <;> rfl
  · cases values <;> rfl

/-- C8 (as amended): when the engine passes the counts `get_nlp_info` reported together
with index arrays of those lengths, the arrays that `eval_jac_g` and `eval_h` return in
the structure phase have exactly `nnz_jac_g` and `nnz_h_lag` entries.  The pairs `eval_h`
returns are the ones the NLP object's Hessian pattern query wrote, unfiltered: when that
query fills both arrays, every returned pair satisfies `row ≥ col` provided every pair it
wrote does. -/
theorem sparsity_structure_entries {σ : Type} (nlp : Nlp σ) (s0 s1 s2 : σ) (n : Int)
    (x : List Number) (new_x : Bool) (obj_factor : Number) (m : Int) (lambda : List Number)
    (new_lambda : Bool) (iRowJ jColJ iRowH jColH : List Int)
    (hJr : (iRowJ.length : Int) = (get_nlp_info nlp s0).2.1.nnz_jac_g)
    (hJc : (jColJ.length : Int) = (get_nlp_info nlp s0).2.1.nnz_jac_g)
    (hHr : (iRowH.length : Int) = (get_nlp_info nlp s0).2.1.nnz_h_lag)
    (hHc : (jColH.length : Int) = (get_nlp_info nlp s0).2.1.nnz_h_lag) :
    let info := (get_nlp_info nlp s0).2.1
    let jac := (eval_jac_g nlp s1 n x new_x m info.nnz_jac_g iRowJ jColJ none).2.1
    let hes := (eval_h nlp s2 n x new_x obj_factor m lambda new_lambda info.nnz_h_lag
      iRowH jColH none).2.1
    let pat := (nlp.getSparsityPatternHessian s2 info.nnz_h_lag iRowH jColH).1
    ((jac.iRow.length : Int) = info.nnz_jac_g ∧ (jac.jCol.length : Int) = info.nnz_jac_g ∧
      (hes.iRow.length : Int) = info.nnz_h_lag ∧ (hes.jCol.length : Int) = info.nnz_h_lag) ∧
    (pat.1.length = iRowH.length → pat.2.length = jColH.length →
      hes.iRow = pat.1 ∧ hes.jCol = pat.2 ∧
      ((∀ p ∈ pat.1.zip pat.2, p.2 ≤ p.1) → ∀ p ∈ hes.iRow.zip hes.jCol, p.2 ≤ p.1)) := by
  intro info jac hes pat
  have hr : MapVec iRowH info.nnz_h_lag = iRowH := MapVec.of_length _ _ hHr
  have hc : MapVec jColH info.nnz_h_lag = jColH := MapVec.of_length _ _ hHc
  refine ⟨⟨?_, ?_, ?_, ?_⟩, ?_⟩
  · simpa [jac, eval_jac_g, MapVec.assign_length] using hJr
  · simpa [jac, eval_jac_g, MapVec.assign_length] using hJc
  · simpa [hes, eval_h, MapVec.assign_length] using hHr
  · simpa [hes, eval_h, MapVec.assign_length] using hHc
  · intro h1 h2
    have e1 : hes.iRow = pat.1 := by
      simp only [hes, eval_h, hr, hc]
      exact MapVec.assign_full _ _ _ hHr h1
    have e2 : hes.jCol = pat.2 := by
      simp only [hes, eval_h, hr, hc]
      exact MapVec.assign_full _ _ _ hHc h2
    refine ⟨e1, e2, ?_⟩
    intro hlow
    rw [e1, e2]
    exact hlow

/-- C8, at a concrete input: the sample NLP object reports two Jacobian and one Hessian
nonzero, and `eval_h` returns its single lower-left pair `(1, 0)`. -/
theorem sparsity_structure_entries_witness :
    ((eval_jac_g sampleNlp [] 2 [(.dec 5 0), (.dec 5 0)] true 1 2 [7, 7] [7, 7]
        none).2.1.iRow.length : Int) = 2 ∧
      (eval_h sampleNlp [] 2 [(.dec 5 0), (.dec 5 0)] true (.dec 1 0) 1 [(.dec 0 0)] true 1 [7] [7]
        none).2.1.iRow = [1] ∧
      (eval_h sampleNlp [] 2 [(.dec 5 0), (.dec 5 0)] true (.dec 1 0) 1 [(.dec 0 0)] true 1 [7] [7]
        none).2.1.jCol = [0] :=
  have h := sparsity_structure_entries sampleNlp [] [] [] 2 [(.dec 5 0), (.dec 5 0)] true (.dec 1 0) 1
    [(.dec 0 0)] true [7, 7] [7, 7] [7] [7] rfl rfl rfl rfl
  ⟨h.1.1, (h.2 rfl rfl).1, (h.2 rfl rfl).2.1⟩

/-- C8 fails as stated: for an NLP object whose Hessian pattern query writes the pair
`(0, 1)`, the structure phase of `eval_h` returns that pair, whose row is below its
column. -/
theorem sparsity_structure_counterexample :
    (get_nlp_info upperNlp []).2.1.nnz_h_lag = 1 ∧
      (eval_h upperNlp [] 2 [(.dec 5 0), (.dec 5 0)] true (.dec 1 0) 1 [(.dec 0 0)] true 1 [7] [7] none).2.1
        = ⟨[0], [1], none⟩ ∧
      ¬ ∀ p ∈ ((eval_h upperNlp [] 2 [(.dec 5 0), (.dec 5 0)] true (.dec 1 0) 1 [(.dec 0 0)] true 1 [7] [7]
          none).2.1.iRow.zip
        (eval_h upperNlp [] 2 [(.dec 5 0), (.dec 5 0)] true (.dec 1 0) 1 [(.dec 0 0)] true 1 [7] [7]
          none).2.1.jCol), p.2 ≤ p.1 := by
  refine ⟨rfl, by decide, ?_⟩
  intro h
  have h01 := h (0, 1) (by decide)
  exact absurd h01 (by decide)

end ct.optcon
